import Mathlib

/-!
Verification development for the AI Health Assistant symptom engine
(src/backend/server.py). The Python source is shallowly embedded:
dictionaries become association lists, Python exceptions (TypeError /
AttributeError raised on `None` comparisons and attribute access) become
the `Except String` monad, and the wall clock read at bundle assembly
time becomes an explicit `now` parameter.
-/

namespace AIHealth

/-! ### Python primitive modelling -/

/-- Python `str.lower()` for an ASCII-oriented string: char-wise lowering. -/
def pyLower (s : String) : String := ⟨s.data.map Char.toLower⟩

/-- Helper for Python `str.title()`: uppercase a char that follows a
non-alphabetic char, lowercase the rest. -/
def pyTitleAux : List Char → Bool → List Char
  | [], _ => []
  | c :: t, prevAlpha =>
    (if prevAlpha then c.toLower else c.toUpper) :: pyTitleAux t c.isAlpha

/-- Python `str.title()`. -/
def pyTitle (s : String) : String := ⟨pyTitleAux s.data false⟩

/-- Contiguous-sublist (substring) test on char lists, modelling Python
`needle in hay` on strings. -/
def listContainsSub (needle : List Char) : List Char → Bool
  | [] => needle.isEmpty
  | c :: t => needle.isPrefixOf (c :: t) || listContainsSub needle t

/-- Python `needle in hay` for strings. -/
def substrB (needle hay : String) : Bool := listContainsSub needle.data hay.data

/-- Python `str(list_of_strings)`: the repr `['a', 'b']` (no item in the
source data contains a quote, so `'` quoting is exact). -/
def pyStrList (l : List String) : String :=
  "[" ++ String.intercalate ", " (l.map (fun s => "\x27" ++ s ++ "\x27")) ++ "]"

/-- Message of the Python `TypeError` raised by `None > int`. -/
def typeErrorGt : String :=
  "TypeError: \x27>\x27 not supported between instances of \x27NoneType\x27 and \x27int\x27"

/-- Message of the Python `TypeError` raised by `None < int`. -/
def typeErrorLt : String :=
  "TypeError: \x27<\x27 not supported between instances of \x27NoneType\x27 and \x27int\x27"

/-- Message of the Python `AttributeError` raised by `None.lower()`. -/
def attrErrorLower : String :=
  "AttributeError: \x27NoneType\x27 object has no attribute \x27lower\x27"

/-- Python `x > n` where `x` is `Optional[int]`: raises `TypeError` on `None`. -/
def pyGtInt : Option Int → Int → Except String Bool
  | none, _ => .error typeErrorGt
  | some v, n => .ok (decide (n < v))

/-- Python `x < n` where `x` is `Optional[int]`: raises `TypeError` on `None`. -/
def pyLtInt : Option Int → Int → Except String Bool
  | none, _ => .error typeErrorLt
  | some v, n => .ok (decide (v < n))

/-- Python `x.lower()` where `x` is `Optional[str]`: raises on `None`. -/
def pyLowerOpt : Option String → Except String String
  | none => .error attrErrorLower
  | some s => .ok (pyLower s)

/-- Python truthiness of an `Optional[int]` (`None` and `0` are falsy). -/
def pyTruthyInt : Option Int → Bool
  | none => false
  | some v => decide (v ≠ 0)

/-- Python `s or fallback` for strings (empty string is falsy). -/
def pyOrStr (s fallback : String) : String := if s = "" then fallback else s

/-- Python `x or ""` for an `Optional[str]`. -/
def pyOrOptStr : Option String → String
  | none => ""
  | some s => s

/-! ### Data model (src/backend/server.py lines 27-75) -/

/-- `SymptomRequest` (pydantic model, lines 27-34). `age` defaults to
`None`; `gender` and `medical_history` default to `""`. -/
structure SymptomRequest where
  symptom : String
  duration : String := ""
  severity : String := ""
  additional_info : String := ""
  age : Option Int := none
  gender : Option String := some ""
  medical_history : Option String := some ""
deriving DecidableEq

/-- The `user_context` dict built in `analyze_symptom` (lines 382-388).
Every key is always present; optional request fields keep their `None`. -/
structure UserContext where
  age : Option Int
  gender : Option String
  medical_history : Option String
  duration : String
  severity : String
deriving DecidableEq

/-- One value of the per-category dietary dict (keys `consume`, `avoid`,
`focus`, `meals`, `supplements`; lines 157-228). -/
structure DietEntry where
  consume : List String
  avoid : List String
  focus : List String
  meals : List String
  supplements : List String
deriving DecidableEq

/-- One cause dict of `causes_db` (lines 267-303). -/
structure CauseEntry where
  condition : String
  probability : String
  description : String
  urgency : String
  confidence : String
deriving DecidableEq

/-- `AIInsight` (lines 50-55); the dicts built by `generate_ai_insights`
have exactly these fields. -/
structure AIInsight where
  insight_type : String
  title : String
  description : String
  recommendation : String
  evidence_level : String
deriving DecidableEq

/-- The `risk_factors` dict of `ai_risk_assessment` (lines 347-353). -/
structure RiskFactors where
  immediate_risk : String
  progression_risk : String
  intervention_urgency : String
  follow_up_timeline : String
  ai_recommendation : String
deriving DecidableEq

/-- `DietRecommendation` (lines 36-41). -/
structure DietRecommendation where
  foods_to_consume : List String
  foods_to_avoid : List String
  nutritional_focus : List String
  meal_suggestions : List String
  supplements : List String
deriving DecidableEq

/-- `PossibleCause` (lines 43-48). -/
structure PossibleCause where
  condition : String
  probability : String
  description : String
  urgency_level : String
  ai_confidence : String
deriving DecidableEq

/-- `HealthResponse` (lines 57-68). -/
structure HealthResponse where
  symptom_analysis : String
  ai_web_research : String
  diet_plan : DietRecommendation
  possible_causes : List PossibleCause
  lifestyle_suggestions : List String
  red_flags : List String
  ai_insights : List AIInsight
  risk_assessment : RiskFactors
  personalized_tips : List String
  medical_disclaimer : String
  search_timestamp : String
deriving DecidableEq

/-! ### Knowledge base (lines 157-253) -/

/-- The `dietary_db` dict literal of `ai_enhanced_dietary_recommendations`
(lines 157-228), as an association list in Python 3.7+ insertion order.
The dict is a local variable rebuilt on every call. -/
def dietary_db : List (String × DietEntry) :=
  [("headache",
    { consume := ["Water (8-10 glasses daily)", "Magnesium-rich foods (almonds, spinach)",
                  "Omega-3 fatty acids (salmon, walnuts)", "Ginger tea", "Peppermint tea",
                  "Complex carbohydrates (quinoa, brown rice)", "Riboflavin foods (eggs, dairy)",
                  "Coenzyme Q10 sources (organ meats, whole grains)", "Feverfew tea (if chronic)"],
      avoid := ["Aged cheeses", "Processed meats (nitrates)", "Alcohol", "Excessive caffeine",
                "Artificial sweeteners (aspartame)", "MSG-containing foods", "Chocolate (if trigger)",
                "Histamine-rich foods (aged wines, fermented foods)"],
      focus := ["Maintain stable blood sugar", "Stay hydrated", "Regular meal timing",
                "Anti-inflammatory nutrients"],
      meals := ["Breakfast: Steel-cut oats with almonds and blueberries",
                "Lunch: Quinoa bowl with spinach, salmon, and avocado",
                "Dinner: Grilled chicken with sweet potato and steamed broccoli",
                "Snack: Handful of walnuts with herbal tea"],
      supplements := ["Magnesium glycinate (400mg)", "Riboflavin (400mg)", "Coenzyme Q10 (100mg)",
                      "Omega-3 (1000mg EPA/DHA)"] }),
   ("nausea",
    { consume := ["Ginger root tea (fresh or dried)", "Plain crackers", "Bananas",
                  "Rice (white, plain)", "Toast (plain)", "Peppermint tea", "Electrolyte solutions",
                  "Small frequent meals", "Bone broth", "Chamomile tea", "Fennel seeds"],
      avoid := ["Spicy foods", "Greasy/fried foods", "Strong odors", "Large meals",
                "Dairy products (initially)", "High-fat foods", "Acidic foods (citrus, tomatoes)",
                "Carbonated beverages", "Cold foods (if sensitive)"],
      focus := ["BRAT diet initially", "Gradual food reintroduction", "Hydration maintenance",
                "Digestive rest"],
      meals := ["Phase 1: Ginger tea with plain crackers",
                "Phase 2: Plain rice with banana slices",
                "Phase 3: Chicken broth with toast",
                "Recovery: Mild chicken soup with rice"],
      supplements := ["Ginger capsules (250mg)", "Vitamin B6 (25mg)", "Probiotics (after acute phase)"] }),
   ("fatigue",
    { consume := ["Iron-rich foods (lean red meat, spinach)", "Vitamin B12 sources (fish, eggs)",
                  "Complex carbohydrates (oats, quinoa)", "Protein at each meal",
                  "Vitamin D sources (fortified milk, salmon)", "Magnesium foods (nuts, seeds)",
                  "Adaptogenic herbs (ashwagandha, rhodiola)", "Green tea (L-theanine)"],
      avoid := ["Refined sugars", "Processed foods", "Excessive caffeine", "Large heavy meals",
                "Alcohol", "Empty calorie foods", "Trans fats", "High-sodium processed foods"],
      focus := ["Stable blood sugar levels", "Adequate protein intake", "Nutrient density",
                "Mitochondrial support"],
      meals := ["Breakfast: Greek yogurt with berries, granola, and chia seeds",
                "Lunch: Lentil soup with whole grain bread and side salad",
                "Dinner: Grilled salmon with quinoa and roasted vegetables",
                "Snack: Apple with almond butter"],
      supplements := ["Iron (if deficient)", "Vitamin B-complex", "Vitamin D3 (2000 IU)",
                      "CoQ10 (100mg)", "Adaptogenic blend"] }),
   ("anxiety",
    { consume := ["Omega-3 rich fish (salmon, sardines)", "Magnesium foods (dark chocolate, nuts)",
                  "Complex carbohydrates (oats, sweet potatoes)",
                  "Herbal teas (passionflower, lemon balm)", "Probiotic foods (kefir, sauerkraut)",
                  "Zinc-rich foods (pumpkin seeds)", "GABA-supporting foods (brown rice, oats)",
                  "L-theanine sources (green tea)"],
      avoid := ["Caffeine excess", "Alcohol", "Refined sugars", "Processed foods",
                "High-sodium foods", "Energy drinks", "Artificial additives",
                "Excessive sugar substitutes"],
      focus := ["Stable blood sugar", "Gut-brain axis support", "Calming nutrients",
                "Neurotransmitter balance"],
      meals := ["Breakfast: Oatmeal with walnuts, berries, and hemp seeds",
                "Lunch: Salmon salad with leafy greens and avocado",
                "Dinner: Turkey with sweet potato and steamed broccoli",
                "Evening: Chamomile tea with small piece of dark chocolate"],
      supplements := ["Magnesium glycinate (400mg)", "Omega-3 (1000mg)", "Probiotics",
                      "L-theanine (200mg)", "Ashwagandha (300mg)"] }),
   ("insomnia",
    { consume := ["Tryptophan foods (turkey, milk, bananas)", "Magnesium-rich foods (almonds, spinach)",
                  "Tart cherry juice", "Herbal teas (chamomile, valerian)",
                  "Complex carbs (whole grains)", "Calcium sources (sesame seeds, dairy)",
                  "Glycine-rich foods (bone broth)"],
      avoid := ["Caffeine after 2 PM", "Large meals before bed", "Alcohol", "Spicy foods",
                "High-sugar foods", "Excessive fluids before bed", "Blue light exposure",
                "Heavy proteins at dinner"],
      focus := ["Sleep-promoting nutrients", "Evening meal timing", "Melatonin precursors",
                "Circadian rhythm support"],
      meals := ["Dinner: Grilled chicken with quinoa (3 hours before bed)",
                "Evening snack: Small banana with almond butter",
                "Bedtime: Chamomile tea with honey",
                "Alternative: Tart cherry juice (1 hour before bed)"],
      supplements := ["Melatonin (0.5-3mg)", "Magnesium glycinate (400mg)", "L-theanine (200mg)",
                      "Valerian root (300mg)"] })]

/-- The `default` dict of `ai_enhanced_dietary_recommendations`
(lines 243-253); built after the personalization loops have run. -/
def default_diet : DietEntry :=
  { consume := ["Anti-inflammatory foods (turmeric, berries)", "Plenty of water",
                "Whole grains", "Lean proteins", "Fresh fruits and vegetables",
                "Probiotic foods (yogurt, kefir)", "Nuts and seeds", "Green tea"],
    avoid := ["Processed foods", "Excessive sugar", "Trans fats", "Excessive alcohol",
              "Highly processed meats", "Artificial additives", "Refined carbohydrates"],
    focus := ["Balanced nutrition", "Regular meal timing", "Portion control", "Nutrient density"],
    meals := ["Focus on whole, unprocessed foods", "Include protein at each meal",
              "Eat plenty of colorful vegetables", "Stay hydrated throughout the day"],
    supplements := ["Multivitamin", "Omega-3", "Vitamin D3", "Probiotics"] }

/-- The item appended by the age rule (line 234). -/
def calcium_item : String := "Calcium-rich foods (for bone health)"

/-- The supplement appended by the age rule (line 235). -/
def vitamin_d_item : String := "Vitamin D3 (higher dose for seniors)"

/-- The item appended by the gender rule (line 240). -/
def iron_item : String := "Iron-rich foods (especially for women)"

/-- Body of the `if age > 50` loop over `dietary_db.values()` (lines 231-235). -/
def age_personalize (e : DietEntry) : DietEntry :=
  { e with
    consume := if substrB "Calcium sources" (pyStrList e.consume) then e.consume
               else e.consume ++ [calcium_item],
    supplements := e.supplements ++ [vitamin_d_item] }

/-- Body of the `if gender == "female"` loop over `dietary_db.values()`
(lines 237-240). -/
def gender_personalize (e : DietEntry) : DietEntry :=
  { e with
    consume := if substrB "Iron" (pyStrList e.consume) then e.consume
               else e.consume ++ [iron_item] }

/-- `ai_enhanced_dietary_recommendations` (lines 150-260). `age` is
`user_context.get('age', 30)`: the key is always present, so the stored
`Option` value is used and a `None` age raises at `age > 50`. The dict is
rebuilt from the literal on each call; the personalization loops mutate
only this call-local copy. The final loop returns the first entry whose
key is a substring of the lowered symptom, else `default`. -/
def ai_enhanced_dietary_recommendations (symptom : String) (user_context : UserContext) :
    Except String DietEntry :=
  let symptom_lower := pyLower symptom
  let age := user_context.age
  match pyLowerOpt user_context.gender with
  | .error e => .error e
  | .ok gender =>
    match pyGtInt age 50 with
    | .error e => .error e
    | .ok gt50 =>
      let db1 := if gt50 then dietary_db.map (fun kv => (kv.1, age_personalize kv.2))
                 else dietary_db
      let db2 := if gender == "female" then db1.map (fun kv => (kv.1, gender_personalize kv.2))
                 else db1
      match db2.find? (fun kv => substrB kv.1 symptom_lower) with
      | some kv => .ok kv.2
      | none => .ok default_diet

/-- The category resolved by the matching loop of
`ai_enhanced_dietary_recommendations` (lines 256-258): the first key of
`dietary_db`, in declared order, contained in the lowered symptom
(`none` = Default). Personalization does not change the keys, so this is
the category for any age/gender. -/
def resolved_category (symptom : String) : Option String :=
  (dietary_db.map Prod.fst).find? (fun k => substrB k (pyLower symptom))

/-! ### Cause analysis (lines 262-309) -/

/-- The hypertension cause entry (lines 279-280): only its probability
depends on the age branch `age < 40`. -/
def hypertension_cause (lt40 : Bool) : CauseEntry :=
  { condition := "Hypertension",
    probability := if lt40 then "Low (5-10%)" else "Medium (15-20%)",
    description := "High blood pressure causing vascular headaches",
    urgency := "High", confidence := "Medium (80%)" }

/-- The `"headache"` cause list (lines 268-281). -/
def headache_causes (lt40 : Bool) : List CauseEntry :=
  [{ condition := "Tension Headache", probability := "High (40-50%)",
     description := "Most common type, often stress-related, muscle tension",
     urgency := "Low", confidence := "High (95%)" },
   { condition := "Dehydration", probability := "High (30-40%)",
     description := "Insufficient fluid intake, electrolyte imbalance",
     urgency := "Low", confidence := "High (90%)" },
   { condition := "Migraine", probability := "Medium (20-30%)",
     description := "Neurological condition with specific triggers and patterns",
     urgency := "Medium", confidence := "Medium (75%)" },
   { condition := "Caffeine Withdrawal", probability := "Medium (15-25%)",
     description := "Sudden reduction in caffeine intake",
     urgency := "Low", confidence := "Medium (70%)" },
   { condition := "Sleep Disorders", probability := "Medium (20-25%)",
     description := "Poor sleep quality or insufficient sleep",
     urgency := "Medium", confidence := "High (85%)" },
   hypertension_cause lt40]

/-- The `"anxiety"` cause list (lines 282-293). -/
def anxiety_causes : List CauseEntry :=
  [{ condition := "Generalized Anxiety Disorder", probability := "High (35-45%)",
     description := "Persistent worry and anxiety about various aspects of life",
     urgency := "Medium", confidence := "High (90%)" },
   { condition := "Stress Response", probability := "High (30-40%)",
     description := "Normal response to life stressors and challenges",
     urgency := "Low", confidence := "High (95%)" },
   { condition := "Caffeine-Induced Anxiety", probability := "Medium (20-25%)",
     description := "Excessive caffeine consumption triggering anxiety symptoms",
     urgency := "Low", confidence := "High (85%)" },
   { condition := "Thyroid Dysfunction", probability := "Medium (10-15%)",
     description := "Hyperthyroidism can mimic anxiety symptoms",
     urgency := "Medium", confidence := "Medium (75%)" },
   { condition := "Panic Disorder", probability := "Low (10-15%)",
     description := "Recurrent panic attacks with intense fear",
     urgency := "High", confidence := "Medium (70%)" }]

/-- The `causes_db` dict literal (lines 267-294). Building the dict
evaluates the hypertension conditional, so the `age < 40` comparison
happens before any key matching. -/
def causes_db (lt40 : Bool) : List (String × List CauseEntry) :=
  [("headache", headache_causes lt40), ("anxiety", anxiety_causes)]

/-- `default_causes` (lines 296-303). -/
def default_causes : List CauseEntry :=
  [{ condition := "Lifestyle Factors", probability := "High (40-50%)",
     description := "Diet, sleep, stress, or activity-related factors",
     urgency := "Low", confidence := "High (90%)" },
   { condition := "Viral Infection", probability := "Medium (20-30%)",
     description := "Common viral illness affecting multiple systems",
     urgency := "Low", confidence := "Medium (70%)" },
   { condition := "Medication Effects", probability := "Medium (15-25%)",
     description := "Side effects or interactions from medications",
     urgency := "Medium", confidence := "Medium (75%)" }]

/-- `ai_enhanced_cause_analysis` (lines 262-309). A `None` age raises
`TypeError` while the dict literal is built (hypertension conditional),
before any matching. -/
def ai_enhanced_cause_analysis (symptom : String) (user_context : UserContext) :
    Except String (List CauseEntry) :=
  let symptom_lower := pyLower symptom
  match pyLtInt user_context.age 40 with
  | .error e => .error e
  | .ok lt40 =>
    match (causes_db lt40).find? (fun kv => substrB kv.1 symptom_lower) with
    | some kv => .ok kv.2
    | none => .ok default_causes

/-- The category resolved by the matching loop of
`ai_enhanced_cause_analysis` (lines 305-307); the keys do not depend on
the age branch. `none` = Default. -/
def cause_resolved_category (symptom : String) : Option String :=
  ((causes_db true).map Prod.fst).find? (fun k => substrB k (pyLower symptom))

/-! ### Insights (lines 311-343) -/

/-- The pattern-analysis insight (lines 316-322), parameterized by the
symptom text via the f-string in its description. -/
def pattern_insight (symptom : String) : AIInsight :=
  { insight_type := "Pattern Analysis",
    title := "AI Pattern Recognition",
    description := "Based on analysis of similar cases, " ++ symptom ++
      " often correlates with specific lifestyle patterns.",
    recommendation :=
      "Consider tracking your symptoms alongside sleep, stress, and dietary patterns for 1-2 weeks.",
    evidence_level := "High confidence based on population data" }

/-- The age-related insight (lines 325-332), appended only when `age > 40`. -/
def age_related_insight : AIInsight :=
  { insight_type := "Age-Related",
    title := "Age-Specific Considerations",
    description :=
      "Symptoms may have different underlying causes and treatment responses in your age group.",
    recommendation :=
      "Consider comprehensive metabolic panel and hormone evaluation if symptoms persist.",
    evidence_level := "Evidence-based for age demographic" }

/-- The prevention insight (lines 335-341), always appended last. -/
def prevention_insight : AIInsight :=
  { insight_type := "Prevention",
    title := "AI Prevention Strategy",
    description := "Proactive lifestyle modifications can reduce symptom recurrence by 60-80%.",
    recommendation :=
      "Implement gradual dietary changes and stress management techniques consistently.",
    evidence_level := "Strong evidence from clinical studies" }

/-- `generate_ai_insights` (lines 311-343). `user_context.get('age', 0)`
returns the stored `Option` value (the key is always present), so a
`None` age raises `TypeError` at the `> 40` comparison. -/
def generate_ai_insights (symptom : String) (user_context : UserContext) :
    Except String (List AIInsight) :=
  match pyGtInt user_context.age 40 with
  | .error e => .error e
  | .ok gt40 =>
    .ok ([pattern_insight symptom] ++ (if gt40 then [age_related_insight] else []) ++
         [prevention_insight])

/-! ### Risk assessment (lines 345-366) -/

/-- `ai_risk_assessment` (lines 345-366). The severity test is the exact
(case-sensitive) membership `severity in ["severe", "very severe"]`;
the duration test lowercases the duration first. -/
def ai_risk_assessment (symptom severity duration : String) : RiskFactors :=
  let risk_factors : RiskFactors :=
    { immediate_risk := "Low", progression_risk := "Low",
      intervention_urgency := "Routine", follow_up_timeline := "1-2 weeks",
      ai_recommendation := "Monitor and implement lifestyle modifications" }
  let risk_factors :=
    if severity == "severe" || severity == "very severe" then
      { risk_factors with immediate_risk := "Medium",
                          intervention_urgency := "Prompt (within 48 hours)",
                          follow_up_timeline := "3-5 days" }
    else risk_factors
  let risk_factors :=
    if substrB "weeks" (pyLower duration) || substrB "month" (pyLower duration) then
      { risk_factors with progression_risk := "Medium",
                          ai_recommendation := "Seek professional evaluation for persistent symptoms" }
    else risk_factors
  risk_factors

/-! ### Bundle assembly (lines 77-148 and 376-512) -/

/-- `ai_web_search_medical_info` (lines 78-148): the returned text is the
templated `web_research` string (the built `search_query` is unused), so
the result depends only on the symptom text; `.strip()` is applied. -/
def ai_web_search_medical_info (symptom : String) : String :=
  ("\n            🔬 **Real-Time Medical Research for " ++ pyTitle symptom ++ "**\n            \n" ++
   "            **Latest Clinical Studies (2024-2025):**\n" ++
   "            - Anti-inflammatory diet approaches show 40-60% symptom reduction in recent trials\n" ++
   "            - Micronutrient deficiencies strongly linked to " ++ symptom ++ " severity and duration\n" ++
   "            - Gut-brain axis research reveals new dietary interventions with 70% efficacy\n" ++
   "            - Personalized nutrition based on genetic factors showing 85% improvement rates\n" ++
   "            - AI-driven symptom tracking shows pattern correlation with dietary choices\n            \n" ++
   "            **Evidence-Based Findings (Current Research):**\n" ++
   "            - Mediterranean diet patterns associated with 45% lower symptom frequency\n" ++
   "            - Omega-3 fatty acids demonstrate significant therapeutic effects (p<0.001)\n" ++
   "            - Probiotic interventions showing positive outcomes in 78% of recent trials\n" ++
   "            - Chronotherapy (meal timing) impacts symptom manifestation by 35%\n" ++
   "            - Machine learning identifies optimal nutrient combinations for symptom relief\n            \n" ++
   "            **Current Treatment Guidelines (2025 Updates):**\n" ++
   "            - First-line dietary interventions recommended before pharmaceutical options\n" ++
   "            - Integrative approach combining nutrition, lifestyle, and AI monitoring\n" ++
   "            - Patient-centered care with AI-personalized dietary recommendations\n" ++
   "            - Real-time symptom tracking for dynamic treatment adjustment\n            \n" ++
   "            **AI-Enhanced Insights:**\n" ++
   "            - Pattern recognition shows " ++ symptom ++ " responds best to early intervention\n" ++
   "            - Dietary compliance tracking improves outcomes by 60%\n" ++
   "            - Personalized meal timing based on circadian rhythm analysis\n            \n" ++
   "            *Sources: Latest peer-reviewed journals, clinical trials, medical databases, and AI research*\n            ").trim

/-- The `lifestyle_suggestions` list of `analyze_symptom` (lines 431-442). -/
def lifestyle_suggestions_list : List String :=
  ["🧠 Practice mindfulness meditation (10-15 minutes daily)",
   "💧 Maintain optimal hydration (half your body weight in ounces)",
   "🏃‍♀️ Engage in regular moderate exercise (150 minutes/week)",
   "😴 Prioritize consistent sleep schedule (7-9 hours nightly)",
   "🍽️ Eat anti-inflammatory foods rich in omega-3s and antioxidants",
   "📝 Keep a symptom diary to identify patterns and triggers",
   "🧘‍♀️ Implement stress-reduction techniques (yoga, deep breathing)",
   "🌞 Get adequate sunlight exposure for vitamin D synthesis",
   "🦠 Support gut health with probiotic-rich foods",
   "⏰ Practice consistent meal timing for metabolic health"]

/-- The `red_flags` list of `analyze_symptom` (lines 445-453). -/
def red_flags_list : List String :=
  ["🚨 Sudden severe symptoms requiring immediate medical attention",
   "⚠️ Symptoms accompanied by fever, confusion, or neurological changes",
   "🔴 Progressive worsening despite lifestyle interventions",
   "💔 Symptoms affecting cardiovascular or respiratory function",
   "🧠 Changes in consciousness, vision, or cognitive function",
   "🩸 Any bleeding or signs of severe dehydration",
   "⏱️ Symptoms persisting beyond expected recovery timeline"]

/-- The `symptom_analysis` f-string (lines 464-475), with `.strip()`
applied at response construction. Python truthiness makes a `None` or
zero age drop the age fragment. -/
def symptom_analysis_of (request : SymptomRequest) : String :=
  ("\n        🤖 **AI-Enhanced Symptom Analysis for \x27" ++ pyTitle request.symptom ++ "\x27**\n        \n" ++
   "        Our advanced AI has analyzed your symptom considering:\n" ++
   "        • Duration: " ++ pyOrStr request.duration "Not specified" ++ "\n" ++
   "        • Severity: " ++ pyOrStr request.severity "Not specified" ++ "  \n" ++
   "        • Personal factors: " ++
   (if pyTruthyInt request.age then "Age " ++ toString (request.age.getD 0) ++ ", " else "") ++
   pyOrOptStr request.gender ++ "\n        \n" ++
   "        This analysis incorporates the latest medical research, AI pattern recognition, and personalized health recommendations tailored to your specific presentation. The AI has processed thousands of similar cases to provide evidence-based guidance.\n        \n" ++
   "        **AI Confidence Level:** High (92% accuracy based on similar symptom patterns)\n        ").trim

/-- The `medical_disclaimer` (lines 477-491): a plain (non-f) triple-quoted
string, so the `datetime.now()` fragment is literal text, not a clock
read; `.strip()` applied. -/
def medical_disclaimer_text : String :=
  ("\n        🏥 **IMPORTANT MEDICAL DISCLAIMER**\n        \n" ++
   "        This AI-enhanced analysis is for educational and informational purposes only and does not constitute medical advice, diagnosis, or treatment. The AI recommendations are based on general medical knowledge and population data, not individual medical assessment.\n        \n" ++
   "        **Always consult with qualified healthcare professionals for:**\n" ++
   "        • Personal medical diagnosis and treatment\n" ++
   "        • Before making significant dietary or lifestyle changes\n" ++
   "        • If you experience any red flag symptoms listed above\n" ++
   "        • For ongoing medical care and monitoring\n        \n" ++
   "        **Emergency:** If experiencing severe or life-threatening symptoms, seek immediate emergency medical care.\n        \n" ++
   "        *AI Analysis Generated: \x7bdatetime.now().strftime(\x27%Y-%m-%d %H:%M:%S\x27)\x7d*\n        ").trim

/-- The `user_context` dict built in `analyze_symptom` (lines 382-388). -/
def userContextOf (request : SymptomRequest) : UserContext :=
  { age := request.age, gender := request.gender, medical_history := request.medical_history,
    duration := request.duration, severity := request.severity }

/-- Construction of the `DietRecommendation` model (lines 395-401). -/
def mkDietRecommendation (d : DietEntry) : DietRecommendation :=
  { foods_to_consume := d.consume, foods_to_avoid := d.avoid, nutritional_focus := d.focus,
    meal_suggestions := d.meals, supplements := d.supplements }

/-- Construction of one `PossibleCause` model (lines 405-413). -/
def mkPossibleCause (c : CauseEntry) : PossibleCause :=
  { condition := c.condition, probability := c.probability, description := c.description,
    urgency_level := c.urgency, ai_confidence := c.confidence }

/-- Construction of one `AIInsight` model (lines 417-425). -/
def mkAIInsight (i : AIInsight) : AIInsight :=
  { insight_type := i.insight_type, title := i.title, description := i.description,
    recommendation := i.recommendation, evidence_level := i.evidence_level }

/-- The `personalized_tips` list (lines 456-461). -/
def personalized_tips_of (request : SymptomRequest) (dietary_info : DietEntry)
    (possible_causes : List PossibleCause) : List String :=
  ["🎯 Based on your " ++ pyOrStr request.severity "reported" ++ " severity, focus on " ++
     (match dietary_info.focus.head? with
      | some f => f
      | none => "gentle interventions"),
   "⏰ Given the " ++ pyOrStr request.duration "reported" ++ " duration, consider " ++
     (if substrB "acute" (pyLower request.duration) then "immediate lifestyle changes"
      else "gradual implementation of recommendations"),
   "🔬 AI analysis suggests your symptom pattern aligns with " ++
     (match possible_causes.head? with
      | some c => pyLower c.condition
      | none => "lifestyle-related factors"),
   "📊 Consider using a health tracking app to monitor progress and patterns"]

/-- Body of the `try` block of `analyze_symptom` (lines 378-508). The
wall-clock read `datetime.now().isoformat()` at response construction is
the explicit `now` parameter; the component calls propagate any Python
exception through `Except`. -/
def analyze_symptom_body (request : SymptomRequest) (now : String) :
    Except String HealthResponse :=
  let user_context := userContextOf request
  let ai_research := ai_web_search_medical_info request.symptom
  match ai_enhanced_dietary_recommendations request.symptom user_context with
  | .error e => .error e
  | .ok dietary_info =>
    match ai_enhanced_cause_analysis request.symptom user_context with
    | .error e => .error e
    | .ok causes_data =>
      let possible_causes := causes_data.map mkPossibleCause
      match generate_ai_insights request.symptom user_context with
      | .error e => .error e
      | .ok insights_data =>
        let ai_insights := insights_data.map mkAIInsight
        let risk := ai_risk_assessment request.symptom request.severity request.duration
        .ok { symptom_analysis := symptom_analysis_of request,
              ai_web_research := ai_research,
              diet_plan := mkDietRecommendation dietary_info,
              possible_causes := possible_causes,
              lifestyle_suggestions := lifestyle_suggestions_list,
              red_flags := red_flags_list,
              ai_insights := ai_insights,
              risk_assessment := risk,
              personalized_tips := personalized_tips_of request dietary_info possible_causes,
              medical_disclaimer := medical_disclaimer_text,
              search_timestamp := now }

/-- `analyze_symptom` (lines 376-512): the `except` clause converts any
exception into the single opaque HTTP 500 detail string. -/
def analyze_symptom (request : SymptomRequest) (now : String) :
    Except String HealthResponse :=
  match analyze_symptom_body request now with
  | .ok r => .ok r
  | .error e => .error ("AI analysis error: " ++ e)

/-- A sequence of dietary evaluations, one per request, in order; each call
rebuilds its table from the `dietary_db` literal exactly as the Python
function does, so there is no carried state. -/
def run_dietary_sequence (l : List (String × UserContext)) : List (Except String DietEntry) :=
  l.map (fun p => ai_enhanced_dietary_recommendations p.1 p.2)

/-! ### Shared lemmas -/

theorem isPrefixOf_map (f : Char → Char) :
    ∀ (n h : List Char), n.isPrefixOf h = true → (n.map f).isPrefixOf (h.map f) = true := by
  intro n
  induction n with
  | nil => intro h _; simp [List.isPrefixOf]
  | cons a as ih =>
    intro h hp
    cases h with
    | nil => simp [List.isPrefixOf] at hp
    | cons b bs =>
      simp only [List.isPrefixOf, Bool.and_eq_true, beq_iff_eq, List.map_cons] at hp ⊢
      exact ⟨by rw [hp.1], ih bs hp.2⟩

theorem listContainsSub_map (f : Char → Char) (n : List Char) :
    ∀ h : List Char, listContainsSub n h = true → listContainsSub (n.map f) (h.map f) = true := by
  intro h
  induction h with
  | nil =>
    intro hc
    simp only [listContainsSub, List.isEmpty_iff] at hc
    simp [hc, listContainsSub]
  | cons c t ih =>
    intro hc
    simp only [listContainsSub, Bool.or_eq_true, List.map_cons] at hc ⊢
    rcases hc with hpre | hrest
    · exact Or.inl (by simpa using isPrefixOf_map f n (c :: t) hpre)
    · exact Or.inr (ih hrest)

/-- A needle made of lowercase letters that occurs in the raw text also
occurs in the char-wise lowered text. -/
theorem substrB_pyLower (n s : String) (hn : n.data.map Char.toLower = n.data)
    (h : substrB n s = true) : substrB n (pyLower s) = true := by
  have hm := listContainsSub_map Char.toLower n.data s.data h
  rw [hn] at hm
  exact hm

/-- The dietary function for a request whose age and gender are present:
category matching over the personalized table equals matching over the
canonical table followed by per-entry personalization. -/
theorem dietary_eval_characterization (s : String) (a : Int) (g : String) (mh : Option String)
    (dur sev : String) :
    ai_enhanced_dietary_recommendations s ⟨some a, some g, mh, dur, sev⟩ =
      match dietary_db.find? (fun kv => substrB kv.1 (pyLower s)) with
      | some kv => .ok (
          (fun e => if pyLower g == "female" then gender_personalize e else e)
          (if decide (50 < a) then age_personalize kv.2 else kv.2))
      | none => .ok default_diet := by
  unfold ai_enhanced_dietary_recommendations
  simp only [pyLowerOpt, pyGtInt]
  cases h50 : decide (50 < a) <;> cases hf : pyLower g == "female" <;>
    simp only [h50, hf, if_true, if_false, Bool.false_eq_true, Bool.true_eq_false,
               List.find?_map, Function.comp_def] <;>
    cases hfind : dietary_db.find? (fun kv => substrB kv.1 (pyLower s)) <;>
      simp [hfind, Function.comp_def]

/-- The cause function for a present age: the `age < 40` branch is taken
while building the table, then the first matching key wins. -/
theorem causes_eval_characterization (s : String) (a : Int) (g mh : Option String)
    (dur sev : String) :
    ai_enhanced_cause_analysis s ⟨some a, g, mh, dur, sev⟩ =
      match (causes_db (decide (a < 40))).find? (fun kv => substrB kv.1 (pyLower s)) with
      | some kv => .ok kv.2
      | none => .ok default_causes := rfl

/-- The insight list for a present age. -/
theorem insights_eval_characterization (s : String) (a : Int) (g mh : Option String)
    (dur sev : String) :
    generate_ai_insights s ⟨some a, g, mh, dur, sev⟩ =
      .ok ([pattern_insight s] ++ (if decide (40 < a) then [age_related_insight] else []) ++
           [prevention_insight]) := rfl

/-! ### Claim theorems -/

/-- C1: the claim says a request with non-empty symptom text and omitted
age completes normally with a full bundle. The code instead stores the
`None` age in `user_context`, so `ai_enhanced_dietary_recommendations`
raises `TypeError` at `age > 50` and the evaluation surfaces as the
internal-fault (HTTP 500) branch. This theorem evaluates the code at the
failing input. -/
theorem c1_omitted_age_hits_internal_fault :
    analyze_symptom { symptom := "headache" } "2026-02-03T00:00:00" =
      .error ("AI analysis error: " ++ typeErrorGt) := rfl

/-- C3: the knowledge table is never mutated across evaluations: each call
of `ai_enhanced_dietary_recommendations` rebuilds its table from the
`dietary_db` literal, so any Default evaluation, an age-60 evaluation on
a specific category, and the re-run Default evaluation yield the first
output twice, and the Default output is the canonical `default_diet`
both before and after the age-60 run. -/
theorem c3_knowledge_table_immutable :
    (∀ i j : String × UserContext,
      run_dietary_sequence [i, j, i] =
        [ai_enhanced_dietary_recommendations i.1 i.2,
         ai_enhanced_dietary_recommendations j.1 j.2,
         ai_enhanced_dietary_recommendations i.1 i.2]) ∧
    run_dietary_sequence
        [("general discomfort", ⟨some 30, some "", some "", "", ""⟩),
         ("headache", ⟨some 60, some "female", some "", "", ""⟩),
         ("general discomfort", ⟨some 30, some "", some "", "", ""⟩)] =
      [.ok default_diet,
       ai_enhanced_dietary_recommendations "headache" ⟨some 60, some "female", some "", "", ""⟩,
       .ok default_diet] :=
  ⟨fun _ _ => rfl, rfl⟩

/-- C7: for the headache category the cause list returned for any present
age is the fixed six-entry list whose last entry is the hypertension
entry keyed on the single threshold `age < 40`; the first five entries,
the list order, and every hypertension field except the probability are
independent of age (the confidence label is `Medium (80%)` on both
branches). -/
theorem c7_hypertension_two_branch (a : Int) :
    ai_enhanced_cause_analysis "headache" ⟨some a, some "", some "", "", ""⟩ =
      .ok (headache_causes (decide (a < 40))) ∧
    (headache_causes true).dropLast = (headache_causes false).dropLast ∧
    (headache_causes true).length = 6 ∧ (headache_causes false).length = 6 ∧
    (headache_causes true).getLast? = some (hypertension_cause true) ∧
    (headache_causes false).getLast? = some (hypertension_cause false) ∧
    (hypertension_cause true).probability = "Low (5-10%)" ∧
    (hypertension_cause false).probability = "Medium (15-20%)" ∧
    (hypertension_cause true).condition = (hypertension_cause false).condition ∧
    (hypertension_cause true).description = (hypertension_cause false).description ∧
    (hypertension_cause true).urgency = (hypertension_cause false).urgency ∧
    (hypertension_cause true).confidence = (hypertension_cause false).confidence :=
  ⟨rfl, rfl, rfl, rfl, rfl, rfl, rfl, rfl, rfl, rfl, rfl, rfl⟩

/-- C8: the claim says the insight list always has 3 entries when
age > 40 and 2 otherwise, in the fixed order pattern / age-related /
prevention. That holds whenever age is present, but an omitted age makes
`generate_ai_insights` raise `TypeError` at `user_context.get('age', 0) > 40`
(the stored value is `None`), so no insight list is produced at all. -/
theorem c8_insight_count_and_order (s : String) (a : Int) :
    generate_ai_insights s ⟨none, some "", some "", "", ""⟩ = .error typeErrorGt ∧
    generate_ai_insights s ⟨some a, some "", some "", "", ""⟩ =
      .ok ([pattern_insight s] ++ (if decide (40 < a) then [age_related_insight] else []) ++
           [prevention_insight]) ∧
    (generate_ai_insights s ⟨some a, some "", some "", "", ""⟩).toOption.map List.length =
      some (if decide (40 < a) then 3 else 2) := by
  refine ⟨rfl, rfl, ?_⟩
  cases h : decide (40 < a) <;>
    simp [generate_ai_insights, pyGtInt, h, Except.toOption]

/-- C10: evaluation is deterministic up to the clock: for every request,
the bundle produced with clock value `n1` is exactly the bundle produced
with clock value `n2` with its `search_timestamp` field replaced by `n1`
(so equal clocks give field-for-field identical bundles, and differing
clocks change only `search_timestamp`; the non-f-string disclaimer's
`datetime.now()` text is literal, not a clock read). -/
theorem c10_deterministic_up_to_clock (request : SymptomRequest) (n1 n2 : String) :
    analyze_symptom request n1 =
      Except.map (fun b => { b with search_timestamp := n1 }) (analyze_symptom request n2) := by
  simp only [analyze_symptom, analyze_symptom_body]
  cases ai_enhanced_dietary_recommendations request.symptom (userContextOf request) <;>
    cases ai_enhanced_cause_analysis request.symptom (userContextOf request) <;>
      cases generate_ai_insights request.symptom (userContextOf request) <;>
        rfl

/-- C2 counterexample: the diet plan and the cause list do not come from
one shared category. For symptom `"nausea"` the diet plan is the nausea
entry while the cause list is the Default one; for `"nausea anxiety"`
the diet plan is still the nausea entry while the cause scan
independently resolves anxiety. -/
theorem c2_counterexample :
    resolved_category "nausea" = some "nausea" ∧
    cause_resolved_category "nausea" = none ∧
    ai_enhanced_cause_analysis "nausea" ⟨some 30, some "", some "", "", ""⟩ =
      .ok default_causes ∧
    (ai_enhanced_dietary_recommendations "nausea" ⟨some 30, some "", some "", "", ""⟩).toOption.map
        DietEntry.meals =
      some ["Phase 1: Ginger tea with plain crackers",
            "Phase 2: Plain rice with banana slices",
            "Phase 3: Chicken broth with toast",
            "Recovery: Mild chicken soup with rice"] ∧
    resolved_category "nausea anxiety" = some "nausea" ∧
    cause_resolved_category "nausea anxiety" = some "anxiety" ∧
    ai_enhanced_cause_analysis "nausea anxiety" ⟨some 30, some "", some "", "", ""⟩ =
      .ok anxiety_causes :=
  ⟨rfl, rfl, rfl, rfl, rfl, rfl, rfl⟩

/-- C2 amended: each component resolves its category independently by
scanning its own table's keys in declared order over the lowered symptom.
The two categories coincide when the dietary category is headache,
anxiety, or Default; when the dietary category is nausea or fatigue, the
cause category is anxiety if the lowered symptom contains "anxiety" and
Default otherwise; when the dietary category is insomnia, the cause
category is Default. -/
theorem c2_category_agreement (s : String) :
    (resolved_category s = some "headache" → cause_resolved_category s = some "headache") ∧
    (resolved_category s = some "anxiety" → cause_resolved_category s = some "anxiety") ∧
    (resolved_category s = none → cause_resolved_category s = none) ∧
    (resolved_category s = some "nausea" →
      cause_resolved_category s =
        (if substrB "anxiety" (pyLower s) then some "anxiety" else none)) ∧
    (resolved_category s = some "fatigue" →
      cause_resolved_category s =
        (if substrB "anxiety" (pyLower s) then some "anxiety" else none)) ∧
    (resolved_category s = some "insomnia" → cause_resolved_category s = none) := by
  cases h1 : substrB "headache" (pyLower s) <;>
  cases h2 : substrB "nausea" (pyLower s) <;>
  cases h3 : substrB "fatigue" (pyLower s) <;>
  cases h4 : substrB "anxiety" (pyLower s) <;>
  cases h5 : substrB "insomnia" (pyLower s) <;>
    simp [resolved_category, cause_resolved_category, dietary_db, causes_db,
          List.find?, h1, h2, h3, h4, h5]

/-- C2 witness: the amended agreement applied at the concrete symptoms
`"headache"` (coinciding categories) and `"nausea anxiety"` (dietary
nausea, cause anxiety). -/
theorem c2_category_agreement_w :
    cause_resolved_category "headache" = some "headache" ∧
    cause_resolved_category "nausea anxiety" = some "anxiety" :=
  ⟨(c2_category_agreement "headache").1 (by rfl),
   ((c2_category_agreement "nausea anxiety").2.2.2.1 (by rfl)).trans (by decide)⟩

/-- C4: category resolution lowercases the input and scans the declared
keys in order headache, nausea, fatigue, anxiety, insomnia, returning the
first substring hit and Default on no hit; any symptom text containing
both "headache" and "nausea" resolves to "headache", and the dietary
function then returns the headache entry (witnessed by its untouched
meal list) for every present age and gender. -/
theorem c4_matcher_order (s : String) :
    resolved_category s =
      ["headache", "nausea", "fatigue", "anxiety", "insomnia"].find?
        (fun k => substrB k (pyLower s)) ∧
    (substrB "headache" s = true → substrB "nausea" s = true →
      resolved_category s = some "headache") ∧
    (substrB "headache" s = true → ∀ (a : Int) (g mh dur sev : String),
      (ai_enhanced_dietary_recommendations s ⟨some a, some g, some mh, dur, sev⟩).toOption.map
          DietEntry.meals =
        some ["Breakfast: Steel-cut oats with almonds and blueberries",
              "Lunch: Quinoa bowl with spinach, salmon, and avocado",
              "Dinner: Grilled chicken with sweet potato and steamed broccoli",
              "Snack: Handful of walnuts with herbal tea"]) := by
  refine ⟨rfl, ?_, ?_⟩
  · intro hh _
    have hh' := substrB_pyLower "headache" s (by decide) hh
    simp [resolved_category, dietary_db, List.find?, hh']
  · intro hh a g mh dur sev
    have hh' := substrB_pyLower "headache" s (by decide) hh
    rw [dietary_eval_characterization]
    have hfind : dietary_db.find? (fun kv => substrB kv.1 (pyLower s)) =
        some ("headache", (dietary_db.get ⟨0, by decide⟩).2) := by
      simp [dietary_db, List.find?, hh']
    rw [hfind]
    cases h50 : decide (50 < a) <;> cases hf : pyLower g == "female" <;>
      simp only [h50, hf] <;> rfl

/-- C4 witness: the ordering property at the concrete symptom
`"headache and nausea"`. -/
theorem c4_matcher_order_w :
    resolved_category "headache and nausea" = some "headache" ∧
    (ai_enhanced_dietary_recommendations "headache and nausea"
        ⟨some 30, some "", some "", "", ""⟩).toOption.map DietEntry.meals =
      some ["Breakfast: Steel-cut oats with almonds and blueberries",
            "Lunch: Quinoa bowl with spinach, salmon, and avocado",
            "Dinner: Grilled chicken with sweet potato and steamed broccoli",
            "Snack: Handful of walnuts with herbal tea"] :=
  ⟨(c4_matcher_order "headache and nausea").2.1 (by decide) (by decide),
   (c4_matcher_order "headache and nausea").2.2 (by decide) 30 "" "" "" ""⟩

/-- C5 counterexample: the code compares the severity text with exact
case-sensitive equality (`severity in ["severe", "very severe"]`), so
`"Severe"` — which case-insensitively equals `"severe"` and must escalate
per the claim — leaves the baseline untouched, while `"severe"` escalates. -/
theorem c5_counterexample :
    (ai_risk_assessment "headache" "Severe" "2 days").immediate_risk = "Low" ∧
    (ai_risk_assessment "headache" "severe" "2 days").immediate_risk = "Medium" :=
  ⟨rfl, rfl⟩

/-- C5 amended: the risk assessor starts from the baseline and applies two
independent overrides, both applicable simultaneously: severity exactly
equal (case-sensitively) to "severe" or "very severe" raises
immediate_risk/urgency/timeline, and a duration containing "weeks" or
"month" case-insensitively raises progression_risk and swaps in the
escalation recommendation; all other values leave the baseline. -/
theorem c5_risk_rules (sym sev dur : String) :
    ((sev = "severe" ∨ sev = "very severe") →
      (ai_risk_assessment sym sev dur).immediate_risk = "Medium" ∧
      (ai_risk_assessment sym sev dur).intervention_urgency = "Prompt (within 48 hours)" ∧
      (ai_risk_assessment sym sev dur).follow_up_timeline = "3-5 days") ∧
    (sev ≠ "severe" → sev ≠ "very severe" →
      (ai_risk_assessment sym sev dur).immediate_risk = "Low" ∧
      (ai_risk_assessment sym sev dur).intervention_urgency = "Routine" ∧
      (ai_risk_assessment sym sev dur).follow_up_timeline = "1-2 weeks") ∧
    ((substrB "weeks" (pyLower dur) = true ∨ substrB "month" (pyLower dur) = true) →
      (ai_risk_assessment sym sev dur).progression_risk = "Medium" ∧
      (ai_risk_assessment sym sev dur).ai_recommendation =
        "Seek professional evaluation for persistent symptoms") ∧
    (substrB "weeks" (pyLower dur) = false → substrB "month" (pyLower dur) = false →
      (ai_risk_assessment sym sev dur).progression_risk = "Low" ∧
      (ai_risk_assessment sym sev dur).ai_recommendation =
        "Monitor and implement lifestyle modifications") := by
  refine ⟨?_, ?_, ?_, ?_⟩
  · intro hsev
    have hs : (sev == "severe" || sev == "very severe") = true := by
      rcases hsev with rfl | rfl <;> decide
    cases hd : (substrB "weeks" (pyLower dur) || substrB "month" (pyLower dur)) <;>
      simp [ai_risk_assessment, hs, hd]
  · intro h1 h2
    have hs : (sev == "severe" || sev == "very severe") = false := by
      simp [h1, h2]
    cases hd : (substrB "weeks" (pyLower dur) || substrB "month" (pyLower dur)) <;>
      simp [ai_risk_assessment, hs, hd]
  · intro h
    have hd : (substrB "weeks" (pyLower dur) || substrB "month" (pyLower dur)) = true := by
      rcases h with h | h <;> simp [h]
    cases hs : (sev == "severe" || sev == "very severe") <;>
      simp [ai_risk_assessment, hs, hd]
  · intro h1 h2
    have hd : (substrB "weeks" (pyLower dur) || substrB "month" (pyLower dur)) = false := by
      simp [h1, h2]
    cases hs : (sev == "severe" || sev == "very severe") <;>
      simp [ai_risk_assessment, hs, hd]

/-- C5 witness: both overrides applied simultaneously at
`("severe", "3 weeks")`. -/
theorem c5_risk_rules_w :
    ((ai_risk_assessment "headache" "severe" "3 weeks").immediate_risk = "Medium" ∧
     (ai_risk_assessment "headache" "severe" "3 weeks").intervention_urgency =
       "Prompt (within 48 hours)" ∧
     (ai_risk_assessment "headache" "severe" "3 weeks").follow_up_timeline = "3-5 days") ∧
    ((ai_risk_assessment "headache" "severe" "3 weeks").progression_risk = "Medium" ∧
     (ai_risk_assessment "headache" "severe" "3 weeks").ai_recommendation =
       "Seek professional evaluation for persistent symptoms") :=
  ⟨(c5_risk_rules "headache" "severe" "3 weeks").1 (Or.inl rfl),
   (c5_risk_rules "headache" "severe" "3 weeks").2.2.1 (Or.inl (by decide))⟩

/-- C6 counterexample: the `default` entry is built only after the
personalization loops have run over `dietary_db.values()`, so an
evaluation that resolves to the Default category with age 60 and gender
"female" returns the canonical Default entry with no calcium, iron, or
higher-dose vitamin-D item appended — contradicting the claim that both
rules are applied for every resolved category including Default. -/
theorem c6_counterexample :
    ai_enhanced_dietary_recommendations "stomach cramps"
        ⟨some 60, some "female", some "", "", ""⟩ = .ok default_diet ∧
    default_diet.consume.contains calcium_item = false ∧
    default_diet.consume.contains iron_item = false ∧
    default_diet.supplements.contains vitamin_d_item = false :=
  ⟨rfl, rfl, rfl, rfl⟩

/-- C6 amended: every evaluation that resolves to a declared category
returns that category's canonical entry with the age rule applied exactly
when the present age is > 50 (calcium item appended unless the consume
list already mentions "Calcium sources", and the higher-dose vitamin-D
supplement always appended) and then the gender rule applied exactly when
the lowered gender equals "female" (iron item appended unless "Iron"
already occurs) — for every age and gender, not only above 50 — while a
Default-resolving evaluation returns the canonical Default entry with no
personalization at any age or gender. -/
theorem c6_personalization_declared_only :
    (∀ s k : String, resolved_category s = some k ↔
      ∃ e0, dietary_db.find? (fun kv => substrB kv.1 (pyLower s)) = some (k, e0)) ∧
    (∀ (s k : String) (e0 : DietEntry) (a : Int) (g : String),
      dietary_db.find? (fun kv => substrB kv.1 (pyLower s)) = some (k, e0) →
      ai_enhanced_dietary_recommendations s ⟨some a, some g, some "", "", ""⟩ =
        .ok (if pyLower g == "female"
             then gender_personalize (if decide (50 < a) then age_personalize e0 else e0)
             else if decide (50 < a) then age_personalize e0 else e0)) ∧
    (∀ (s : String) (kv : String × DietEntry),
      dietary_db.find? (fun p => substrB p.1 (pyLower s)) = some kv → kv ∈ dietary_db) ∧
    (∀ e0 : DietEntry,
      (age_personalize e0).supplements = e0.supplements ++ [vitamin_d_item] ∧
      (age_personalize e0).consume =
        (if substrB "Calcium sources" (pyStrList e0.consume) then e0.consume
         else e0.consume ++ [calcium_item]) ∧
      (gender_personalize e0).consume =
        (if substrB "Iron" (pyStrList e0.consume) then e0.consume
         else e0.consume ++ [iron_item])) ∧
    (∀ (a : Int) (g s : String), resolved_category s = none →
      ai_enhanced_dietary_recommendations s ⟨some a, some g, some "", "", ""⟩ =
        .ok default_diet) := by
  refine ⟨?_, ?_, ?_, fun e0 => ⟨rfl, rfl, rfl⟩, ?_⟩
  · intro s k
    rw [resolved_category, List.find?_map]
    simp only [Option.map_eq_some', Function.comp_def]
    constructor
    · rintro ⟨⟨k1, e⟩, hkv, rfl⟩
      exact ⟨e, hkv⟩
    · rintro ⟨e, he⟩
      exact ⟨(k, e), he, rfl⟩
  · intro s k e0 a g h
    rw [dietary_eval_characterization, h]
  · intro s kv h
    exact List.mem_of_find?_eq_some h
  · intro a g s hs
    rw [dietary_eval_characterization]
    have hfind : dietary_db.find? (fun kv => substrB kv.1 (pyLower s)) = none := by
      rw [resolved_category, List.find?_map] at hs
      exact Option.map_eq_none.mp hs
    rw [hfind]

/-- C6 witness: the amended rule applied to an evaluation resolving to
the insomnia category (symptom "trouble with insomnia", not the bare
key): at age 60 with gender "female" the vitamin-D supplement is
appended while the calcium item is skipped because the insomnia entry
already mentions "Calcium sources". -/
theorem c6_personalization_declared_only_w :
    (ai_enhanced_dietary_recommendations "trouble with insomnia"
        ⟨some 60, some "female", some "", "", ""⟩).toOption.map DietEntry.supplements =
      some (["Melatonin (0.5-3mg)", "Magnesium glycinate (400mg)", "L-theanine (200mg)",
             "Valerian root (300mg)"] ++ [vitamin_d_item]) := by
  rw [c6_personalization_declared_only.2.1 "trouble with insomnia" "insomnia"
        (dietary_db.get ⟨4, by decide⟩).2 60 "female" (by decide)]
  rfl

/-- C9 counterexample: a request with empty symptom text is not rejected:
the evaluation completes and builds its bundle from the Default category
(Default causes and Default diet plan), contradicting the claim that an
explicit validation error is produced. -/
theorem c9_counterexample :
    (analyze_symptom { symptom := "", age := some 30 } "2026-02-03T00:00:00").toOption.map
        HealthResponse.possible_causes = some (default_causes.map mkPossibleCause) ∧
    (analyze_symptom { symptom := "", age := some 30 } "2026-02-03T00:00:00").toOption.map
        HealthResponse.diet_plan = some (mkDietRecommendation default_diet) :=
  ⟨rfl, rfl⟩

/-- C9 amended: empty symptom text is never rejected: for every clock
value and every present age and gender, the evaluation succeeds and the
bundle's diet plan and cause list are the Default-category data (the
explicit-rejection behavior is a spec aspiration the reference code does
not implement). -/
theorem c9_empty_symptom_not_rejected (now : String) (a : Int) (g : String) :
    (analyze_symptom { symptom := "", age := some a, gender := some g } now).toOption.map
        HealthResponse.diet_plan = some (mkDietRecommendation default_diet) ∧
    (analyze_symptom { symptom := "", age := some a, gender := some g } now).toOption.map
        HealthResponse.possible_causes = some (default_causes.map mkPossibleCause) := by
  have hctx : userContextOf { symptom := "", age := some a, gender := some g } =
      (⟨some a, some g, some "", "", ""⟩ : UserContext) := rfl
  have hdiet : ai_enhanced_dietary_recommendations "" ⟨some a, some g, some "", "", ""⟩ =
      .ok default_diet := by
    rw [dietary_eval_characterization]; rfl
  have hcauses : ai_enhanced_cause_analysis "" ⟨some a, some g, some "", "", ""⟩ =
      .ok default_causes := by
    rw [causes_eval_characterization]; rfl
  have hins : generate_ai_insights "" ⟨some a, some g, some "", "", ""⟩ =
      .ok ([pattern_insight ""] ++ (if decide (40 < a) then [age_related_insight] else []) ++
           [prevention_insight]) := insights_eval_characterization "" a (some g) (some "") "" ""
  constructor <;>
  · simp only [analyze_symptom, analyze_symptom_body, hctx, hdiet, hcauses, hins]
    rfl

end AIHealth
